import Mathlib

/-!
Shallow embedding of the forum-backend authentication subsystem
(`src/services/auth.service.js`, the `UserRepository` and `TokenRepository`
classes, and `src/utils/validation.js`).

Modelling conventions:
* times are milliseconds since the epoch, as `Nat` (`new Date()` becomes an
  explicit `now : Nat` argument);
* raw tokens, token hashes, passwords and password hashes are `String`s;
* the external crypto primitives (`hashToken`, `bcrypt.hash`,
  `bcrypt.compare` from `src/utils/jwt.js` / the bcrypt library, which are
  not part of the service logic) are fields of an `Env` record, and the
  random draws (`generateRefreshToken()`, `generateVerificationToken()`,
  `generateResetToken()`, the id Prisma assigns to a created row) are
  explicit arguments of the operations that perform them;
* the Prisma store is a pair of lists (`users`, `tokens`); `update` on a
  `where` clause that matches no row raises Prisma error P2025 and `create`
  on a unique-key collision raises P2002 — both are modelled by the
  `ServiceError.storeError` outcome; `updateMany` / `deleteMany` /
  `findFirst` / `findUnique` never raise;
* every service operation returns `DB × Except ServiceError α`: the first
  component is the store after the call (side effects happen even when the
  call raises), the second the returned value or the raised typed error.
-/

namespace Forum

/-- User account status (Prisma enum in `prisma/schema`). -/
inductive UserStatus
  | PENDING_VERIFICATION
  | ACTIVE
  | SUSPENDED
  | BANNED
  deriving DecidableEq, Repr

/-- A row of the `user` table, restricted to the fields the authentication
subsystem reads or writes. -/
structure StoredUser where
  id : Nat
  email : String
  username : String
  passwordHash : String
  displayName : String
  role : String
  status : UserStatus
  emailVerified : Bool
  failedLogins : Nat
  lockedUntil : Option Nat
  verifyToken : Option String
  resetToken : Option String
  resetTokenExpiry : Option Nat
  lastLoginAt : Option Nat
  lastLoginIp : Option String
  deriving DecidableEq, Repr

/-- A row of the `refreshToken` table. -/
structure StoredToken where
  tokenHash : String
  userId : Nat
  userAgent : String
  ipAddress : String
  expiresAt : Nat
  createdAt : Nat
  revokedAt : Option Nat
  replacedBy : Option String
  deriving DecidableEq, Repr

/-- The persistent store. -/
structure DB where
  users : List StoredUser
  tokens : List StoredToken
  deriving DecidableEq, Repr

/-- External crypto / configuration collaborators of the service:
`hashToken` and the bcrypt hash/verify pair live in `src/utils/jwt.js` and
the bcrypt library, `refreshExpirationMs` is
`getTokenExpiration(config.jwt.refreshExpiration)` relative to `now`. -/
structure Env where
  hashToken : String → String
  bcryptHash : String → String
  bcryptCompare : String → String → Bool
  refreshExpirationMs : Nat

/-- Typed errors of `src/utils/errors.js`, plus `storeError` for a Prisma
P2025/P2002 error escaping a repository call. -/
inductive ServiceError
  | validation (message : String) (details : List String)
  | authentication (message : String)
  | conflict (message : String)
  | notFound (resource : String)
  | storeError
  deriving DecidableEq, Repr

/-- The stateless access token: the claim set signed by
`generateAccessToken({userId, email, role})`. -/
structure AccessToken where
  userId : Nat
  email : String
  role : String
  deriving DecidableEq, Repr

-- ====================================================
-- src/utils/validation.js
-- ====================================================

/-- JS `\s` on the characters the model cares about (ASCII whitespace). -/
def isSpaceChar (c : Char) : Bool := c.isWhitespace

/-- JS `String.prototype.toLowerCase()` (structural implementation over the
character list). -/
def lowerString (s : String) : String := String.mk (s.data.map Char.toLower)

/-- Model of `isValidEmail`: regex `/^[^\s@]+@[^\s@]+\.[^\s@]+$/` and length ≤ 255.
The regex decomposes the string as `a ++ "@" ++ bc` where `a` is nonempty
without whitespace or `@`, and `bc` is nonempty without whitespace or `@`
and contains a `.` that has at least one character on each side. -/
def isValidEmail (email : String) : Bool :=
  if email = "" then false
  else if email.length > 255 then false
  else
    let cs := email.toList
    let a := cs.takeWhile (fun c => c ≠ '@')
    let rest := cs.dropWhile (fun c => c ≠ '@')
    match rest with
    | [] => false
    | _ :: bc =>
        a ≠ [] ∧ a.all (fun c => ¬ isSpaceChar c) ∧
        bc ≠ [] ∧ bc.all (fun c => ¬ isSpaceChar c ∧ c ≠ '@') ∧
        (List.range bc.length).any (fun k =>
          1 ≤ k ∧ k + 1 ≤ bc.length - 1 ∧ bc.getD k ' ' = '.')

/-- Model of `isValidUsername`: regex `/^[a-zA-Z][a-zA-Z0-9_-]{2,29}$/`. -/
def isValidUsername (username : String) : Bool :=
  match username.toList with
  | [] => false
  | c :: tl =>
      c.isAlpha ∧ 2 ≤ tl.length ∧ tl.length ≤ 29 ∧
      tl.all (fun d => d.isAlphanum ∨ d = '_' ∨ d = '-')

/-- Model of `isStrongPassword`: nonempty, 8–128 chars, at least one letter and one
digit. -/
def isStrongPassword (password : String) : Bool :=
  if password = "" then false
  else if password.length < 8 ∨ password.length > 128 then false
  else
    let hasLetter := password.toList.any (fun c => c.isAlpha)
    let hasNumber := password.toList.any (fun c => c.isDigit)
    hasLetter ∧ hasNumber

/-- Model of `getPasswordStrengthFeedback`: the list of unmet password rules. -/
def getPasswordStrengthFeedback (password : String) : List String :=
  (if password = "" ∨ password.length < 8 then
    ["Password must be at least 8 characters"] else []) ++
  (if password.toList.any (fun c => c.isAlpha) then [] else
    ["Password must contain at least one letter"]) ++
  (if password.toList.any (fun c => c.isDigit) then [] else
    ["Password must contain at least one number"])

-- ====================================================
-- UserRepository (src/repositories — USER REPOSITORY class)
-- ====================================================

namespace UserRepository

/-- Model of `findByEmail(email, includePassword)`: `findUnique` on the lowercased
email; `if (!email) return null`. The model always carries the hash. -/
def findByEmail (email : String) (db : DB) : Option StoredUser :=
  if email = "" then none
  else db.users.find? (fun u => u.email = lowerString email)

/-- Model of `findById(id, includePassword)`: `findUnique` by id. -/
def findById (id : Nat) (db : DB) : Option StoredUser :=
  db.users.find? (fun u => u.id = id)

/-- In-place update of the user row with the given id. -/
def updateUserRow (id : Nat) (f : StoredUser → StoredUser) (db : DB) : DB :=
  { db with users := db.users.map (fun u => if u.id = id then f u else u) }

/-- Model of `updateLoginInfo(id, ip)`: sets `lastLoginAt`, `lastLoginIp`, zeroes
`failedLogins`, clears `lockedUntil`. Prisma `update` raises P2025 when the
row is absent. -/
def updateLoginInfo (now : Nat) (id : Nat) (ip : String) (db : DB) :
    Option DB :=
  if (findById id db).isSome then
    some (updateUserRow id (fun u =>
      { u with lastLoginAt := some now, lastLoginIp := some ip,
               failedLogins := 0, lockedUntil := none }) db)
  else none

/-- Model of `incrementFailedLogins(id)`: atomic `increment: 1` returning the new
count, then a second update setting `lockedUntil = now + 30 minutes` when
the count is ≥ 5. Returns the new count with the new store. -/
def incrementFailedLogins (now : Nat) (id : Nat) (db : DB) :
    Option (DB × Nat) :=
  match findById id db with
  | none => none
  | some u =>
      let n := u.failedLogins + 1
      let db1 := updateUserRow id (fun v => { v with failedLogins := n }) db
      if 5 ≤ n then
        some (updateUserRow id
          (fun v => { v with lockedUntil := some (now + 30 * 60 * 1000) })
          db1, n)
      else some (db1, n)

/-- Model of `verifyEmail(token)`: `findFirst` by `verifyToken`, then update
`emailVerified`, clear the token, promote the status to ACTIVE. -/
def verifyEmail (token : String) (db : DB) : DB × Option StoredUser :=
  match db.users.find? (fun u => u.verifyToken = some token) with
  | none => (db, none)
  | some u =>
      (updateUserRow u.id (fun v =>
        { v with emailVerified := true, verifyToken := none,
                 status := UserStatus.ACTIVE }) db,
       some { u with emailVerified := true, verifyToken := none,
                     status := UserStatus.ACTIVE })

/-- Model of `setResetToken(email, token)`: update by lowercased email, setting the
reset token and a 1-hour expiry. P2025 when the row is absent. -/
def setResetToken (now : Nat) (email : String) (token : String) (db : DB) :
    Option DB :=
  match db.users.find? (fun u => u.email = lowerString email) with
  | none => none
  | some u =>
      some (updateUserRow u.id (fun v =>
        { v with resetToken := some token,
                 resetTokenExpiry := some (now + 60 * 60 * 1000) }) db)

/-- Model of `resetPassword(token, passwordHash)`: `findFirst` where `resetToken`
matches and `resetTokenExpiry > now`; on a hit, store the new hash, clear
the reset fields, zero `failedLogins`, clear `lockedUntil`. -/
def resetPassword (now : Nat) (token : String) (passwordHash : String)
    (db : DB) : DB × Option StoredUser :=
  match db.users.find? (fun u =>
      u.resetToken == some token &&
      match u.resetTokenExpiry with
      | some t => decide (now < t)
      | none => false) with
  | none => (db, none)
  | some u =>
      (updateUserRow u.id (fun v =>
        { v with passwordHash := passwordHash, resetToken := none,
                 resetTokenExpiry := none, failedLogins := 0,
                 lockedUntil := none }) db,
       some { u with passwordHash := passwordHash, resetToken := none,
                     resetTokenExpiry := none, failedLogins := 0,
                     lockedUntil := none })

/-- Model of `update(id, { passwordHash })` as used by `changePassword`. P2025 when
the row is absent. -/
def updatePasswordHash (id : Nat) (passwordHash : String) (db : DB) :
    Option DB :=
  if (findById id db).isSome then
    some (updateUserRow id (fun u => { u with passwordHash := passwordHash })
      db)
  else none

/-- Model of `emailExists(email)`. -/
def emailExists (email : String) (db : DB) : Bool :=
  (db.users.find? (fun u => u.email = lowerString email)).isSome

/-- Model of `usernameExists(username)`. -/
def usernameExists (username : String) (db : DB) : Bool :=
  (db.users.find? (fun u => u.username = lowerString username)).isSome

/-- Model of `create(data)`: inserts the new user row; Prisma fills the defaults
`role USER`, `status PENDING_VERIFICATION`, `emailVerified false`,
`failedLogins 0`. P2002 when the email, username or id collides. -/
def create (newId : Nat) (email username passwordHash displayName : String)
    (verifyToken : String) (db : DB) : Option (DB × StoredUser) :=
  if (db.users.find? (fun u =>
      u.id = newId ∨ u.email = lowerString email ∨
      u.username = lowerString username)).isSome then none
  else
    let u : StoredUser :=
      { id := newId, email := lowerString email, username := lowerString username,
        passwordHash := passwordHash,
        displayName := if displayName = "" then username else displayName,
        role := "USER", status := UserStatus.PENDING_VERIFICATION,
        emailVerified := false, failedLogins := 0, lockedUntil := none,
        verifyToken := some verifyToken, resetToken := none,
        resetTokenExpiry := none, lastLoginAt := none, lastLoginIp := none }
    some ({ db with users := db.users ++ [u] }, u)

end UserRepository

-- ====================================================
-- TokenRepository (src/repositories — TOKEN REPOSITORY class)
-- ====================================================

namespace TokenRepository

/-- Model of `create(data)`: inserts a refresh-token row. `tokenHash` is a unique
key, so a collision raises P2002. -/
def create (now : Nat) (tokenHash : String) (userId : Nat)
    (userAgent ipAddress : String) (expiresAt : Nat) (db : DB) :
    Option DB :=
  if (db.tokens.find? (fun t => t.tokenHash = tokenHash)).isSome then none
  else
    some { db with tokens := db.tokens ++
      [{ tokenHash := tokenHash, userId := userId, userAgent := userAgent,
         ipAddress := ipAddress, expiresAt := expiresAt, createdAt := now,
         revokedAt := none, replacedBy := none }] }

/-- Model of `findByHash(tokenHash)`: `findUnique` by the hash (the `include: user`
join is modelled by a separate `UserRepository.findById` at the call
site). -/
def findByHash (tokenHash : String) (db : DB) : Option StoredToken :=
  db.tokens.find? (fun t => t.tokenHash = tokenHash)

/-- Model of `revoke(tokenHash, replacedBy = null)`: unconditional `update` of the
row with that hash, setting `revokedAt = now` and `replacedBy`. Prisma
raises P2025 when no row matches. -/
def revoke (now : Nat) (tokenHash : String) (replacedBy : Option String)
    (db : DB) : Option DB :=
  if (db.tokens.find? (fun t => t.tokenHash = tokenHash)).isSome then
    some { db with tokens := db.tokens.map (fun t =>
      if t.tokenHash = tokenHash then
        { t with revokedAt := some now, replacedBy := replacedBy }
      else t) }
  else none

/-- Model of `revokeAllForUser(userId)`: `updateMany` over the user's rows with
`revokedAt: null`, setting `revokedAt = now`. Never raises. -/
def revokeAllForUser (now : Nat) (userId : Nat) (db : DB) : DB :=
  { db with tokens := db.tokens.map (fun t =>
      if t.userId = userId ∧ t.revokedAt = none then
        { t with revokedAt := some now }
      else t) }

/-- Model of `deleteExpired()`: `deleteMany` of every row with `expiresAt < now` OR
`revokedAt` non-null. -/
def deleteExpired (now : Nat) (db : DB) : DB :=
  { db with tokens := db.tokens.filter (fun t =>
      ¬ (t.expiresAt < now ∨ t.revokedAt ≠ none)) }

end TokenRepository

-- ====================================================
-- AuthService (src/services/auth.service.js)
-- ====================================================

/-- The safe user fields `login` returns. -/
structure SafeUser where
  id : Nat
  email : String
  username : String
  displayName : String
  role : String
  emailVerified : Bool
  deriving DecidableEq, Repr

/-- Result of a successful `login`. -/
structure LoginResult where
  user : SafeUser
  accessToken : AccessToken
  refreshToken : String
  deriving DecidableEq, Repr

/-- Result of a successful `refreshToken` call. -/
structure RefreshResult where
  accessToken : AccessToken
  refreshToken : String
  deriving DecidableEq, Repr

/-- What the read part of `refreshToken` decides before the first write of
the rotation: the minted claims, the raw/ hashed new token, the hash of the
presented token and the owning user. -/
structure RefreshPlan where
  accessToken : AccessToken
  newRefresh : String
  oldHash : String
  newHash : String
  userId : Nat
  deriving DecidableEq, Repr

namespace AuthService

/-- Model of `register({email, username, password, displayName})`. `newId` is the id
Prisma assigns to the created row and `verifyTok` the value of
`generateVerificationToken()`. -/
def register (env : Env) (newId : Nat) (verifyTok : String)
    (email username password displayName : String) (db : DB) :
    DB × Except ServiceError StoredUser :=
  if ¬ isValidEmail email then
    (db, .error (.validation "Invalid email format" []))
  else if ¬ isValidUsername username then
    (db, .error (.validation
      "Username must be 3-30 characters, start with a letter, and contain only letters, numbers, underscores, or hyphens"
      []))
  else if ¬ isStrongPassword password then
    (db, .error (.validation "Password does not meet requirements"
      (getPasswordStrengthFeedback password)))
  else if UserRepository.emailExists email db then
    (db, .error (.conflict "Email is already registered"))
  else if UserRepository.usernameExists username db then
    (db, .error (.conflict "Username is already taken"))
  else
    match UserRepository.create newId email username
        (env.bcryptHash password) displayName verifyTok db with
    | none => (db, .error .storeError)
    | some (db1, u) => (db1, .ok u)

/-- The part of `login` after the lockout gate: password verification,
failed-attempt counting, status check, token issuance, login-info
update. -/
def loginAfterLockCheck (env : Env) (now : Nat) (newRefresh : String)
    (password userAgent ipAddress : String) (user : StoredUser)
    (db : DB) : DB × Except ServiceError LoginResult :=
  if env.bcryptCompare password user.passwordHash then
    if user.status = UserStatus.BANNED then
      (db, .error (.authentication "Your account has been banned"))
    else if user.status = UserStatus.SUSPENDED then
      (db, .error (.authentication "Your account is currently suspended"))
    else
      let accessToken : AccessToken :=
        { userId := user.id, email := user.email, role := user.role }
      let refreshTokenHash := env.hashToken newRefresh
      match TokenRepository.create now refreshTokenHash user.id userAgent
          ipAddress (now + env.refreshExpirationMs) db with
      | none => (db, .error .storeError)
      | some db1 =>
          match UserRepository.updateLoginInfo now user.id ipAddress
              db1 with
          | none => (db1, .error .storeError)
          | some db2 =>
              (db2, .ok
                { user := { id := user.id, email := user.email,
                            username := user.username,
                            displayName := user.displayName,
                            role := user.role,
                            emailVerified := user.emailVerified },
                  accessToken := accessToken,
                  refreshToken := newRefresh })
  else
    match UserRepository.incrementFailedLogins now user.id db with
    | none => (db, .error .storeError)
    | some (db1, _) =>
        (db1, .error (.authentication "Invalid email or password"))

/-- Model of `login({email, password, userAgent, ipAddress})`. `newRefresh` is the
value of `generateRefreshToken()`. -/
def login (env : Env) (now : Nat) (newRefresh : String)
    (email password userAgent ipAddress : String) (db : DB) :
    DB × Except ServiceError LoginResult :=
  match UserRepository.findByEmail email db with
  | none => (db, .error (.authentication "Invalid email or password"))
  | some user =>
      match user.lockedUntil with
      | some tL =>
          if now < tL then
            let minutesLeft := (tL - now + 59999) / 60000
            (db, .error (.authentication
              ("Account locked. Please try again in " ++
                toString minutesLeft ++ " minutes.")))
          else loginAfterLockCheck env now newRefresh password userAgent
            ipAddress user db
      | none => loginAfterLockCheck env now newRefresh password userAgent
          ipAddress user db

/-- The reads and checks of `refreshToken` up to (not including) its first
write of the rotation path — everything before `tokenRepository.revoke`.
The reuse-detection branch performs its own write
(`revokeAllForUser`). -/
def refreshRead (env : Env) (now : Nat) (newRefresh : String)
    (refreshToken : String) (db : DB) : DB × Except ServiceError RefreshPlan :=
  if refreshToken = "" then
    (db, .error (.authentication "Refresh token not provided"))
  else
    let tokenHash := env.hashToken refreshToken
    match TokenRepository.findByHash tokenHash db with
    | none => (db, .error (.authentication "Invalid refresh token"))
    | some storedToken =>
        if storedToken.revokedAt ≠ none then
          (TokenRepository.revokeAllForUser now storedToken.userId db,
            .error (.authentication "Token has been revoked"))
        else if storedToken.expiresAt < now then
          (db, .error (.authentication "Refresh token expired"))
        else
          match UserRepository.findById storedToken.userId db with
          | none => (db, .error (.authentication "Account is not active"))
          | some user =>
              if user.status = UserStatus.BANNED ∨
                  user.status = UserStatus.SUSPENDED then
                (db, .error (.authentication "Account is not active"))
              else
                (db, .ok
                  { accessToken := { userId := user.id, email := user.email,
                                     role := user.role },
                    newRefresh := newRefresh,
                    oldHash := tokenHash,
                    newHash := env.hashToken newRefresh,
                    userId := user.id })

/-- The writes of the rotation path of `refreshToken`: revoke the old row
with `replacedBy` = the new hash, then persist the new row. -/
def refreshWrite (env : Env) (now : Nat) (userAgent ipAddress : String)
    (plan : RefreshPlan) (db : DB) : DB × Except ServiceError RefreshResult :=
  match TokenRepository.revoke now plan.oldHash (some plan.newHash) db with
  | none => (db, .error .storeError)
  | some db1 =>
      match TokenRepository.create now plan.newHash plan.userId userAgent
          ipAddress (now + env.refreshExpirationMs) db1 with
      | none => (db1, .error .storeError)
      | some db2 =>
          (db2, .ok { accessToken := plan.accessToken,
                      refreshToken := plan.newRefresh })

/-- Model of `refreshToken({refreshToken, userAgent, ipAddress})`: the read/check
phase followed, when it passes, by the rotation writes. -/
def refreshTokenOp (env : Env) (now : Nat) (newRefresh : String)
    (refreshToken : String) (userAgent ipAddress : String) (db : DB) :
    DB × Except ServiceError RefreshResult :=
  match refreshRead env now newRefresh refreshToken db with
  | (db1, .error e) => (db1, .error e)
  | (db1, .ok plan) => refreshWrite env now userAgent ipAddress plan db1

/-- Model of `logout(refreshToken)`: no-op on a missing/empty token, otherwise an
unconditional `revoke` by the presented token's hash. -/
def logout (env : Env) (now : Nat) (refreshToken : String) (db : DB) :
    DB × Except ServiceError Unit :=
  if refreshToken = "" then (db, .ok ())
  else
    match TokenRepository.revoke now (env.hashToken refreshToken) none db with
    | none => (db, .error .storeError)
    | some db1 => (db1, .ok ())

/-- Model of `logoutAll(userId)`. -/
def logoutAll (now : Nat) (userId : Nat) (db : DB) :
    DB × Except ServiceError Unit :=
  (TokenRepository.revokeAllForUser now userId db, .ok ())

/-- Model of `verifyEmail(token)`. -/
def verifyEmailOp (token : String) (db : DB) :
    DB × Except ServiceError StoredUser :=
  match UserRepository.verifyEmail token db with
  | (db1, none) =>
      (db1, .error (.validation "Invalid or expired verification token" []))
  | (db1, some user) => (db1, .ok user)

/-- Model of `requestPasswordReset(email)`. `resetTok` is the value of
`generateResetToken()`. -/
def requestPasswordReset (now : Nat) (resetTok : String) (email : String)
    (db : DB) : DB × Except ServiceError String :=
  match UserRepository.findByEmail email db with
  | none => (db, .ok "If the email exists, a reset link has been sent")
  | some _ =>
      match UserRepository.setResetToken now email resetTok db with
      | none => (db, .error .storeError)
      | some db1 => (db1, .ok "If the email exists, a reset link has been sent")

/-- Model of `resetPassword(token, newPassword)`. -/
def resetPasswordOp (env : Env) (now : Nat) (token newPassword : String)
    (db : DB) : DB × Except ServiceError String :=
  if ¬ isStrongPassword newPassword then
    (db, .error (.validation "Password does not meet requirements"
      (getPasswordStrengthFeedback newPassword)))
  else
    match UserRepository.resetPassword now token (env.bcryptHash newPassword)
        db with
    | (db1, none) =>
        (db1, .error (.validation "Invalid or expired reset token" []))
    | (db1, some user) =>
        (TokenRepository.revokeAllForUser now user.id db1,
          .ok "Password reset successful. Please login with your new password.")

/-- Model of `changePassword(userId, currentPassword, newPassword)`. -/
def changePassword (env : Env) (now : Nat) (userId : Nat)
    (currentPassword newPassword : String) (db : DB) :
    DB × Except ServiceError String :=
  match UserRepository.findById userId db with
  | none => (db, .error (.notFound "User"))
  | some user =>
      if env.bcryptCompare currentPassword user.passwordHash then
        if ¬ isStrongPassword newPassword then
          (db, .error (.validation "Password does not meet requirements"
            (getPasswordStrengthFeedback newPassword)))
        else
          match UserRepository.updatePasswordHash userId
              (env.bcryptHash newPassword) db with
          | none => (db, .error .storeError)
          | some db1 =>
              (TokenRepository.revokeAllForUser now userId db1,
                .ok "Password changed successfully")
      else (db, .error (.authentication "Current password is incorrect"))

end AuthService

-- ====================================================
-- Concrete fixtures
-- ====================================================

/-- A concrete environment: the token hash is the identity (injective, as
the SHA-256 of `hashToken` is collision-free in practice), the bcrypt hash
prefixes `"H"`, and verification accepts exactly that hash. -/
def envId : Env :=
  { hashToken := fun s => s,
    bcryptHash := fun p => "H" ++ p,
    bcryptCompare := fun p h => h == "H" ++ p,
    refreshExpirationMs := 604800000 }

/-- An ordinary active user. -/
def alice : StoredUser :=
  { id := 1, email := "a@x.com", username := "alice",
    passwordHash := "HPassw0rd", displayName := "Alice", role := "USER",
    status := UserStatus.ACTIVE, emailVerified := true, failedLogins := 0,
    lockedUntil := none, verifyToken := none, resetToken := none,
    resetTokenExpiry := none, lastLoginAt := none, lastLoginIp := none }

/-- A refresh-token row of Alice's that is already revoked. -/
def tokRevoked : StoredToken :=
  { tokenHash := "t1", userId := 1, userAgent := "ua", ipAddress := "ip",
    expiresAt := 1000000, createdAt := 0, revokedAt := some 5,
    replacedBy := none }

/-- A live refresh-token row of Alice's. -/
def tokLive : StoredToken :=
  { tokenHash := "t2", userId := 1, userAgent := "ua", ipAddress := "ip",
    expiresAt := 1000000, createdAt := 0, revokedAt := none,
    replacedBy := none }

/-- Store in which Alice owns one revoked and one live token. -/
def dbReuse : DB := { users := [alice], tokens := [tokRevoked, tokLive] }

-- ====================================================
-- Helper lemmas
-- ====================================================

theorem revokeAllForUser_users (now uid : Nat) (db : DB) :
    (TokenRepository.revokeAllForUser now uid db).users = db.users := rfl

/-- The repository sweep `revokeAllForUser` marks every live token of the user revoked at
`now`. -/
theorem revokeAllForUser_mem (now uid : Nat) (db : DB) {tok : StoredToken}
    (htok : tok ∈ db.tokens) (h1 : tok.userId = uid)
    (h2 : tok.revokedAt = none) :
    { tok with revokedAt := some now } ∈
      (TokenRepository.revokeAllForUser now uid db).tokens := by
  refine List.mem_map.mpr ⟨tok, htok, ?_⟩
  simp [h1, h2]

/-- Reuse detection: a presented token whose row is revoked makes `refresh`
revoke all of the owner's live tokens and raise. -/
theorem refresh_reuse_detected (env : Env) (now : Nat)
    (newRefresh t ua ip : String) (db : DB) (rec : StoredToken) (r : Nat)
    (hne : t ≠ "")
    (hfind : TokenRepository.findByHash (env.hashToken t) db = some rec)
    (hrev : rec.revokedAt = some r) :
    AuthService.refreshTokenOp env now newRefresh t ua ip db =
      (TokenRepository.revokeAllForUser now rec.userId db,
        .error (.authentication "Token has been revoked")) := by
  unfold AuthService.refreshTokenOp AuthService.refreshRead
  simp [hne, hfind, hrev]

/-- The lookup `find?` commutes with a `map` whose function preserves the
predicate. -/
theorem find?_map_preserve {α : Type} (f : α → α) (p : α → Bool)
    (hp : ∀ a, p (f a) = p a) :
    ∀ l : List α, (l.map f).find? p = (l.find? p).map f := by
  intro l
  induction l with
  | nil => rfl
  | cons a l ih =>
      by_cases hpa : p a = true
      · rw [List.map_cons, List.find?_cons_of_pos _ (by rw [hp]; exact hpa),
          List.find?_cons_of_pos _ hpa]
        rfl
      · rw [List.map_cons,
          List.find?_cons_of_neg _ (by rw [hp]; exact hpa),
          List.find?_cons_of_neg _ hpa, ih]

/-- The row rewrite performed by `revoke` keeps every row's `tokenHash`. -/
theorem revoke_rewrite_preserves_hash (now : Nat) (h0 h : String)
    (rb : Option String) :
    ∀ tok : StoredToken,
      (decide ((if tok.tokenHash = h0 then
          { tok with revokedAt := some now, replacedBy := rb }
        else tok).tokenHash = h)) = decide (tok.tokenHash = h) := by
  intro tok
  by_cases htk : tok.tokenHash = h0 <;> simp [htk]

/-- The update `revoke` on a hash that is present succeeds and rewrites exactly the
matching row. -/
theorem revoke_of_found (now : Nat) (h0 : String) (rb : Option String)
    (db : DB) (rec : StoredToken)
    (hfind : TokenRepository.findByHash h0 db = some rec) :
    TokenRepository.revoke now h0 rb db =
      some { db with tokens := db.tokens.map (fun t =>
        if t.tokenHash = h0 then
          { t with revokedAt := some now, replacedBy := rb }
        else t) } := by
  unfold TokenRepository.findByHash at hfind
  unfold TokenRepository.revoke
  rw [hfind]
  simp

/-- Looking a hash up after `revoke`'s row rewrite. -/
theorem findByHash_after_revoke (now : Nat) (h0 h : String)
    (rb : Option String) (db : DB) :
    TokenRepository.findByHash h
      { db with tokens := db.tokens.map (fun t =>
          if t.tokenHash = h0 then
            { t with revokedAt := some now, replacedBy := rb }
          else t) } =
    (TokenRepository.findByHash h db).map (fun t =>
      if t.tokenHash = h0 then
        { t with revokedAt := some now, replacedBy := rb }
      else t) := by
  unfold TokenRepository.findByHash
  exact find?_map_preserve _ _ (revoke_rewrite_preserves_hash now h0 h rb)
    db.tokens

/-- Looking a hash up in a store with one extra appended row. -/
theorem findByHash_append (h : String) (db : DB) (rec : StoredToken) :
    TokenRepository.findByHash h { db with tokens := db.tokens ++ [rec] } =
      ((TokenRepository.findByHash h db).or
        (if rec.tokenHash = h then some rec else none)) := by
  unfold TokenRepository.findByHash
  rw [List.find?_append]
  by_cases hr : rec.tokenHash = h <;> simp [hr]

/-- The insert `create` on a fresh hash succeeds and appends the new row. -/
theorem create_of_fresh (now : Nat) (tokenHash : String) (userId : Nat)
    (ua ip : String) (expiresAt : Nat) (db : DB)
    (hfresh : TokenRepository.findByHash tokenHash db = none) :
    TokenRepository.create now tokenHash userId ua ip expiresAt db =
      some { db with tokens := db.tokens ++
        [{ tokenHash := tokenHash, userId := userId, userAgent := ua,
           ipAddress := ip, expiresAt := expiresAt, createdAt := now,
           revokedAt := none, replacedBy := none }] } := by
  unfold TokenRepository.findByHash at hfresh
  unfold TokenRepository.create
  rw [hfresh]
  simp

/-- The read phase of `refresh` on a live, unexpired token of an active
user yields the rotation plan and leaves the store untouched. -/
theorem refreshRead_success (env : Env) (now : Nat) (newRefresh t : String)
    (db : DB) (rec : StoredToken) (u : StoredUser)
    (hne : t ≠ "")
    (hfind : TokenRepository.findByHash (env.hashToken t) db = some rec)
    (hlive : rec.revokedAt = none)
    (hexp : ¬ rec.expiresAt < now)
    (huser : UserRepository.findById rec.userId db = some u)
    (hstat : ¬ (u.status = UserStatus.BANNED ∨
      u.status = UserStatus.SUSPENDED)) :
    AuthService.refreshRead env now newRefresh t db =
      (db, .ok { accessToken := { userId := u.id, email := u.email,
                                  role := u.role },
                 newRefresh := newRefresh,
                 oldHash := env.hashToken t,
                 newHash := env.hashToken newRefresh,
                 userId := u.id }) := by
  unfold AuthService.refreshRead
  simp [hne, hfind, hlive, hexp, huser, hstat]

/-- Full success behaviour of `refresh`: the store after the call is the
old store with the presented row revoked (`replacedBy` = new hash) and the
new row appended, and the returned pair carries the owner's claims and the
new raw token. -/
theorem refresh_rotation_success (env : Env) (now : Nat)
    (newRefresh t ua ip : String) (db : DB) (rec : StoredToken)
    (u : StoredUser)
    (hne : t ≠ "")
    (hfind : TokenRepository.findByHash (env.hashToken t) db = some rec)
    (hlive : rec.revokedAt = none)
    (hexp : ¬ rec.expiresAt < now)
    (huser : UserRepository.findById rec.userId db = some u)
    (hstat : ¬ (u.status = UserStatus.BANNED ∨
      u.status = UserStatus.SUSPENDED))
    (hfresh : TokenRepository.findByHash (env.hashToken newRefresh) db =
      none) :
    AuthService.refreshTokenOp env now newRefresh t ua ip db =
      ({ db with tokens := db.tokens.map (fun tok =>
          if tok.tokenHash = env.hashToken t then
            { tok with revokedAt := some now,
                       replacedBy := some (env.hashToken newRefresh) }
          else tok) ++
          [{ tokenHash := env.hashToken newRefresh, userId := u.id,
             userAgent := ua, ipAddress := ip,
             expiresAt := now + env.refreshExpirationMs, createdAt := now,
             revokedAt := none, replacedBy := none }] },
        .ok { accessToken := { userId := u.id, email := u.email,
                               role := u.role },
              refreshToken := newRefresh }) := by
  have hrev := revoke_of_found now (env.hashToken t)
    (some (env.hashToken newRefresh)) db rec hfind
  have hfresh1 : TokenRepository.findByHash (env.hashToken newRefresh)
      { db with tokens := db.tokens.map (fun tok =>
          if tok.tokenHash = env.hashToken t then
            { tok with revokedAt := some now,
                       replacedBy := some (env.hashToken newRefresh) }
          else tok) } = none := by
    rw [findByHash_after_revoke, hfresh]
    rfl
  have hcr := create_of_fresh now (env.hashToken newRefresh) u.id ua ip
    (now + env.refreshExpirationMs) _ hfresh1
  unfold AuthService.refreshTokenOp
  rw [refreshRead_success env now newRefresh t db rec u hne hfind hlive hexp
    huser hstat]
  unfold AuthService.refreshWrite
  simp only [hrev, hcr]

/-- A row found by hash carries that hash. -/
theorem findByHash_hash_eq {h : String} {db : DB} {rec : StoredToken}
    (hfind : TokenRepository.findByHash h db = some rec) :
    rec.tokenHash = h := by
  unfold TokenRepository.findByHash at hfind
  have hb := List.find?_some hfind
  simp at hb
  exact hb

/-- A row found by id carries that id. -/
theorem findById_id_eq {id : Nat} {db : DB} {u : StoredUser}
    (hu : UserRepository.findById id db = some u) : u.id = id := by
  unfold UserRepository.findById at hu
  have hb := List.find?_some hu
  simp at hb
  exact hb

/-- Looking the updated id up after an in-place user-row update. -/
theorem findById_after_update (id : Nat) (f : StoredUser → StoredUser)
    (db : DB) (u : StoredUser) (hf : ∀ v, (f v).id = v.id)
    (hu : UserRepository.findById id db = some u) :
    UserRepository.findById id (UserRepository.updateUserRow id f db) =
      some (f u) := by
  have hid := findById_id_eq hu
  unfold UserRepository.findById at hu ⊢
  unfold UserRepository.updateUserRow
  rw [find?_map_preserve _ _ ?_ db.users, hu]
  · simp [hid]
  · intro v
    by_cases hv : v.id = id <;> simp [hv, hf]

/-- A user-row update leaves other ids untouched. -/
theorem findById_after_update_ne (id i : Nat) (f : StoredUser → StoredUser)
    (db : DB) (hf : ∀ v, (f v).id = v.id) (hne : i ≠ id) :
    UserRepository.findById i (UserRepository.updateUserRow id f db) =
      UserRepository.findById i db := by
  unfold UserRepository.findById UserRepository.updateUserRow
  rw [find?_map_preserve _ _ ?_ db.users]
  · cases hcase : db.users.find? (fun u => decide (u.id = i)) with
    | none => rfl
    | some u =>
        have hui : u.id = i := by
          have hb := List.find?_some hcase
          simp at hb
          exact hb
        have hnid : u.id ≠ id := by rw [hui]; exact hne
        simp [hnid]
  · intro v
    by_cases hv : v.id = id <;> simp [hv, hf]

theorem updateUserRow_tokens (id : Nat) (f : StoredUser → StoredUser)
    (db : DB) : (UserRepository.updateUserRow id f db).tokens = db.tokens :=
  rfl

/-- Running `loginAfterLockCheck` on a wrong password: increment the counter, lock
at 5 or more, raise the generic error. -/
theorem loginAfterLockCheck_wrong (env : Env) (now : Nat)
    (newRefresh password ua ip : String) (u : StoredUser) (db : DB)
    (hcmp : env.bcryptCompare password u.passwordHash = false)
    (huid : UserRepository.findById u.id db = some u) :
    AuthService.loginAfterLockCheck env now newRefresh password ua ip u db =
      ((if 5 ≤ u.failedLogins + 1 then
          UserRepository.updateUserRow u.id
            (fun v => { v with lockedUntil := some (now + 30 * 60 * 1000) })
            (UserRepository.updateUserRow u.id
              (fun v => { v with failedLogins := u.failedLogins + 1 }) db)
        else
          UserRepository.updateUserRow u.id
            (fun v => { v with failedLogins := u.failedLogins + 1 }) db),
       .error (.authentication "Invalid email or password")) := by
  unfold AuthService.loginAfterLockCheck UserRepository.incrementFailedLogins
  rw [huid]
  by_cases h5 : 5 ≤ u.failedLogins + 1 <;> simp [hcmp, h5]

/-- When the account is not locked (or the lock has expired), `login`
proceeds to the password check. -/
theorem login_not_locked (env : Env) (now : Nat)
    (newRefresh email password ua ip : String) (db : DB) (u : StoredUser)
    (hfind : UserRepository.findByEmail email db = some u)
    (hnl : ∀ tL, u.lockedUntil = some tL → tL ≤ now) :
    AuthService.login env now newRefresh email password ua ip db =
      AuthService.loginAfterLockCheck env now newRefresh password ua ip u
        db := by
  unfold AuthService.login
  simp only [hfind]
  cases hcase : u.lockedUntil with
  | none => rfl
  | some tL =>
      have hnow : ¬ now < tL := Nat.not_lt.mpr (hnl tL hcase)
      simp [hnow]

/-- A login attempt during an active lock fails with the remaining-minutes
message and leaves the store untouched. -/
theorem login_locked (env : Env) (now : Nat)
    (newRefresh email password ua ip : String) (db : DB) (u : StoredUser)
    (tL : Nat)
    (hfind : UserRepository.findByEmail email db = some u)
    (hlk : u.lockedUntil = some tL) (hfut : now < tL) :
    AuthService.login env now newRefresh email password ua ip db =
      (db, .error (.authentication
        ("Account locked. Please try again in " ++
          toString ((tL - now + 59999) / 60000) ++ " minutes."))) := by
  unfold AuthService.login
  simp [hfind, hlk, hfut]

/-- The failed-login counter of user `i` as stored in `db`. -/
def failedLoginsOf (i : Nat) (db : DB) : Option Nat :=
  (UserRepository.findById i db).map (fun u => u.failedLogins)

/-- The counter only reads the user table. -/
theorem failedLoginsOf_congr_users (i : Nat) (db db2 : DB)
    (h : db2.users = db.users) : failedLoginsOf i db2 = failedLoginsOf i db := by
  unfold failedLoginsOf UserRepository.findById
  rw [h]

/-- A user-row field update that keeps `id` and `failedLogins` leaves every
counter unchanged. -/
theorem failedLoginsOf_updateUserRow (i id : Nat)
    (f : StoredUser → StoredUser) (db : DB)
    (hid : ∀ v, (f v).id = v.id)
    (hfl : ∀ v, (f v).failedLogins = v.failedLogins) :
    failedLoginsOf i (UserRepository.updateUserRow id f db) =
      failedLoginsOf i db := by
  unfold failedLoginsOf UserRepository.findById UserRepository.updateUserRow
  rw [find?_map_preserve _ _ ?_ db.users]
  · cases hcase : db.users.find? (fun u => decide (u.id = i)) with
    | none => rfl
    | some v =>
        by_cases hv : v.id = id <;> simp [hv, hfl]
  · intro v
    by_cases hv : v.id = id <;> simp [hv, hid]

theorem revoke_users {now : Nat} {h : String} {rb : Option String}
    {db db2 : DB} (hrv : TokenRepository.revoke now h rb db = some db2) :
    db2.users = db.users := by
  unfold TokenRepository.revoke at hrv
  by_cases hc : (db.tokens.find? (fun t => decide (t.tokenHash = h))).isSome
  · rw [if_pos hc] at hrv
    cases hrv
    rfl
  · rw [if_neg hc] at hrv
    cases hrv

theorem create_users {now : Nat} {h : String} {uid : Nat}
    {ua ip : String} {e : Nat} {db db2 : DB}
    (hcr : TokenRepository.create now h uid ua ip e db = some db2) :
    db2.users = db.users := by
  unfold TokenRepository.create at hcr
  by_cases hc : (db.tokens.find? (fun t => decide (t.tokenHash = h))).isSome
  · rw [if_pos hc] at hcr
    cases hcr
  · rw [if_neg hc] at hcr
    cases hcr
    rfl

theorem refreshRead_users (env : Env) (now : Nat) (newRefresh t : String)
    (db : DB) : (AuthService.refreshRead env now newRefresh t db).1.users =
      db.users := by
  unfold AuthService.refreshRead
  by_cases hne : t = ""
  · simp [hne]
  · rw [if_neg hne]
    cases hfind : TokenRepository.findByHash (env.hashToken t) db with
    | none => simp [hfind]
    | some rec =>
        by_cases hrev : rec.revokedAt ≠ none
        · simp [hfind, hrev, TokenRepository.revokeAllForUser]
        · by_cases hexp : rec.expiresAt < now
          · simp [hfind, hrev, hexp]
          · cases huser : UserRepository.findById rec.userId db with
            | none => simp [hfind, hrev, hexp, huser]
            | some u =>
                by_cases hstat : u.status = UserStatus.BANNED ∨
                  u.status = UserStatus.SUSPENDED
                · simp [hfind, hrev, hexp, huser, hstat]
                · simp [hfind, hrev, hexp, huser, hstat]

theorem refreshWrite_users (env : Env) (now : Nat) (ua ip : String)
    (plan : RefreshPlan) (db : DB) :
    (AuthService.refreshWrite env now ua ip plan db).1.users =
      db.users := by
  unfold AuthService.refreshWrite
  cases hrv : TokenRepository.revoke now plan.oldHash (some plan.newHash)
      db with
  | none => simp [hrv]
  | some db1 =>
      cases hcr : TokenRepository.create now plan.newHash plan.userId ua ip
          (now + env.refreshExpirationMs) db1 with
      | none =>
          simp only [hrv, hcr]
          exact revoke_users hrv
      | some db2 =>
          simp only [hrv, hcr]
          exact (create_users hcr).trans (revoke_users hrv)

theorem refreshTokenOp_users (env : Env) (now : Nat)
    (newRefresh t ua ip : String) (db : DB) :
    (AuthService.refreshTokenOp env now newRefresh t ua ip db).1.users =
      db.users := by
  unfold AuthService.refreshTokenOp
  rcases hread : AuthService.refreshRead env now newRefresh t db with
    ⟨db1, r⟩
  have h1 : db1.users = db.users := by
    have := refreshRead_users env now newRefresh t db
    rw [hread] at this
    exact this
  cases r with
  | error e => exact h1
  | ok plan => exact (refreshWrite_users env now ua ip plan db1).trans h1

theorem logout_users (env : Env) (now : Nat) (t : String) (db : DB) :
    (AuthService.logout env now t db).1.users = db.users := by
  unfold AuthService.logout
  by_cases hne : t = ""
  · simp [hne]
  · rw [if_neg hne]
    cases hrv : TokenRepository.revoke now (env.hashToken t) none db with
    | none => simp [hrv]
    | some db1 =>
        simp only [hrv]
        exact revoke_users hrv

theorem findById_congr_users (i : Nat) (db db2 : DB)
    (h : db2.users = db.users) :
    UserRepository.findById i db2 = UserRepository.findById i db := by
  unfold UserRepository.findById
  rw [h]

/-- Token-side revocation does not affect user lookups. -/
theorem findById_revokeAll (i now uid : Nat) (db : DB) :
    UserRepository.findById i (TokenRepository.revokeAllForUser now uid db)
      = UserRepository.findById i db := rfl

/-- A successful login returns the token pair and stores the login info
with a zeroed failed-login counter and a cleared lock. -/
theorem login_success_resets (env : Env) (now : Nat)
    (newRefresh email password ua ip : String) (db : DB) (u : StoredUser)
    (hfind : UserRepository.findByEmail email db = some u)
    (hnl : ∀ tL, u.lockedUntil = some tL → tL ≤ now)
    (hcmp : env.bcryptCompare password u.passwordHash = true)
    (hb : ¬ u.status = UserStatus.BANNED)
    (hs : ¬ u.status = UserStatus.SUSPENDED)
    (hfresh : TokenRepository.findByHash (env.hashToken newRefresh) db =
      none)
    (huid : UserRepository.findById u.id db = some u) :
    (AuthService.login env now newRefresh email password ua ip db).2 =
      .ok { user := { id := u.id, email := u.email, username := u.username,
                      displayName := u.displayName, role := u.role,
                      emailVerified := u.emailVerified },
            accessToken := { userId := u.id, email := u.email,
                             role := u.role },
            refreshToken := newRefresh } ∧
    UserRepository.findById u.id
        (AuthService.login env now newRefresh email password ua ip db).1 =
      some { u with failedLogins := 0, lockedUntil := none,
                    lastLoginAt := some now, lastLoginIp := some ip } := by
  rw [login_not_locked env now newRefresh email password ua ip db u hfind
    hnl]
  unfold AuthService.loginAfterLockCheck
  have hcr := create_of_fresh now (env.hashToken newRefresh) u.id ua ip
    (now + env.refreshExpirationMs) db hfresh
  have huid2 : UserRepository.findById u.id
      { db with tokens := db.tokens ++
        [{ tokenHash := env.hashToken newRefresh, userId := u.id,
           userAgent := ua, ipAddress := ip,
           expiresAt := now + env.refreshExpirationMs, createdAt := now,
           revokedAt := none, replacedBy := none }] } = some u := huid
  have hut : UserRepository.updateLoginInfo now u.id ip
      { db with tokens := db.tokens ++
        [{ tokenHash := env.hashToken newRefresh, userId := u.id,
           userAgent := ua, ipAddress := ip,
           expiresAt := now + env.refreshExpirationMs, createdAt := now,
           revokedAt := none, replacedBy := none }] } =
      some (UserRepository.updateUserRow u.id (fun v =>
        { v with lastLoginAt := some now, lastLoginIp := some ip,
                 failedLogins := 0, lockedUntil := none })
        { db with tokens := db.tokens ++
          [{ tokenHash := env.hashToken newRefresh, userId := u.id,
             userAgent := ua, ipAddress := ip,
             expiresAt := now + env.refreshExpirationMs, createdAt := now,
             revokedAt := none, replacedBy := none }] }) := by
    unfold UserRepository.updateLoginInfo
    rw [huid2]
    simp
  simp only [hcmp, if_true, hb, if_false, hs, hcr, hut]
  refine ⟨by trivial, ?_⟩
  have := findById_after_update u.id (fun v =>
    { v with lastLoginAt := some now, lastLoginIp := some ip,
             failedLogins := 0, lockedUntil := none })
    { db with tokens := db.tokens ++
      [{ tokenHash := env.hashToken newRefresh, userId := u.id,
         userAgent := ua, ipAddress := ip,
         expiresAt := now + env.refreshExpirationMs, createdAt := now,
         revokedAt := none, replacedBy := none }] } u (fun _ => rfl) huid2
  exact this

-- ====================================================
-- Claim theorems
-- ====================================================

/-- C1: for every presented refresh token whose stored record exists and
has `revokedAt` set, `refreshToken` revokes every live token owned by that
record's user and fails with `AuthenticationError("Token has been
revoked")`; the blanket revocation happens even though the call raises. -/
theorem C1_reuse_revokes_all_and_raises (env : Env) (now : Nat)
    (newRefresh t ua ip : String) (db : DB) (rec : StoredToken) (r : Nat)
    (hne : t ≠ "")
    (hfind : TokenRepository.findByHash (env.hashToken t) db = some rec)
    (hrev : rec.revokedAt = some r) :
    AuthService.refreshTokenOp env now newRefresh t ua ip db =
      (TokenRepository.revokeAllForUser now rec.userId db,
        .error (.authentication "Token has been revoked")) ∧
    ∀ tok ∈ db.tokens, tok.userId = rec.userId → tok.revokedAt = none →
      { tok with revokedAt := some now } ∈
        (AuthService.refreshTokenOp env now newRefresh t ua ip db).1.tokens := by
  have h := refresh_reuse_detected env now newRefresh t ua ip db rec r hne
    hfind hrev
  refine ⟨h, fun tok htok h1 h2 => ?_⟩
  rw [h]
  exact revokeAllForUser_mem now rec.userId db htok h1 h2

/-- C2: a successful refresh of a live, unexpired token of an active user
returns a new access/refresh pair, persists a new row keyed by the new
token's hash, marks the old row revoked with `replacedBy` = the new hash,
and a second refresh with the same old raw token can never succeed: it
triggers reuse handling instead. -/
theorem C2_rotation_invariant (env : Env) (now : Nat)
    (newRefresh t ua ip : String) (db : DB) (rec : StoredToken)
    (u : StoredUser)
    (hne : t ≠ "")
    (hfind : TokenRepository.findByHash (env.hashToken t) db = some rec)
    (hlive : rec.revokedAt = none)
    (hexp : ¬ rec.expiresAt < now)
    (huser : UserRepository.findById rec.userId db = some u)
    (hstat : ¬ (u.status = UserStatus.BANNED ∨
      u.status = UserStatus.SUSPENDED))
    (hfresh : TokenRepository.findByHash (env.hashToken newRefresh) db =
      none) :
    (AuthService.refreshTokenOp env now newRefresh t ua ip db).2 =
      .ok { accessToken := { userId := u.id, email := u.email,
                             role := u.role },
            refreshToken := newRefresh } ∧
    TokenRepository.findByHash (env.hashToken newRefresh)
        (AuthService.refreshTokenOp env now newRefresh t ua ip db).1 =
      some { tokenHash := env.hashToken newRefresh, userId := u.id,
             userAgent := ua, ipAddress := ip,
             expiresAt := now + env.refreshExpirationMs, createdAt := now,
             revokedAt := none, replacedBy := none } ∧
    TokenRepository.findByHash (env.hashToken t)
        (AuthService.refreshTokenOp env now newRefresh t ua ip db).1 =
      some { rec with revokedAt := some now,
                      replacedBy := some (env.hashToken newRefresh) } ∧
    ∀ (now2 : Nat) (newRefresh2 ua2 ip2 : String),
      AuthService.refreshTokenOp env now2 newRefresh2 t ua2 ip2
          (AuthService.refreshTokenOp env now newRefresh t ua ip db).1 =
        (TokenRepository.revokeAllForUser now2 rec.userId
            (AuthService.refreshTokenOp env now newRefresh t ua ip db).1,
          .error (.authentication "Token has been revoked")) := by
  have hmain := refresh_rotation_success env now newRefresh t ua ip db rec u
    hne hfind hlive hexp huser hstat hfresh
  have hrecHash := findByHash_hash_eq hfind
  have hfind' := hfind
  have hfresh' := hfresh
  unfold TokenRepository.findByHash at hfind' hfresh'
  have hp := revoke_rewrite_preserves_hash now (env.hashToken t)
    (env.hashToken newRefresh) (some (env.hashToken newRefresh))
  have hpOld := revoke_rewrite_preserves_hash now (env.hashToken t)
    (env.hashToken t) (some (env.hashToken newRefresh))
  have hnew : TokenRepository.findByHash (env.hashToken newRefresh)
      (AuthService.refreshTokenOp env now newRefresh t ua ip db).1 =
      some { tokenHash := env.hashToken newRefresh, userId := u.id,
             userAgent := ua, ipAddress := ip,
             expiresAt := now + env.refreshExpirationMs, createdAt := now,
             revokedAt := none, replacedBy := none } := by
    rw [hmain]
    unfold TokenRepository.findByHash
    rw [List.find?_append, find?_map_preserve _ _ hp db.tokens, hfresh']
    simp
  have hold : TokenRepository.findByHash (env.hashToken t)
      (AuthService.refreshTokenOp env now newRefresh t ua ip db).1 =
      some { rec with revokedAt := some now,
                      replacedBy := some (env.hashToken newRefresh) } := by
    rw [hmain]
    unfold TokenRepository.findByHash
    rw [List.find?_append, find?_map_preserve _ _ hpOld db.tokens, hfind']
    simp [hrecHash]
  refine ⟨by rw [hmain], hnew, hold, fun now2 newRefresh2 ua2 ip2 => ?_⟩
  exact refresh_reuse_detected env now2 newRefresh2 t ua2 ip2
    (AuthService.refreshTokenOp env now newRefresh t ua ip db).1
    { rec with revokedAt := some now,
               replacedBy := some (env.hashToken newRefresh) } now hne hold
    rfl

/-- C3: a wrong-password login increments the failed-login counter even
though the call raises; reaching 5 sets a 30-minute lock; and a login
during an active lock fails stating the remaining minutes without any
password comparison (the outcome is independent of the crypto
environment). -/
theorem C3_failed_login_lockout (env : Env) (now : Nat)
    (newRefresh email password ua ip : String) (db : DB) (u : StoredUser)
    (hfind : UserRepository.findByEmail email db = some u)
    (huid : UserRepository.findById u.id db = some u) :
    ((∀ tL, u.lockedUntil = some tL → tL ≤ now) →
      env.bcryptCompare password u.passwordHash = false →
      (AuthService.login env now newRefresh email password ua ip db).2 =
        .error (.authentication "Invalid email or password") ∧
      UserRepository.findById u.id
          (AuthService.login env now newRefresh email password ua ip db).1 =
        some { u with failedLogins := u.failedLogins + 1,
                      lockedUntil := if 5 ≤ u.failedLogins + 1 then
                        some (now + 30 * 60 * 1000) else u.lockedUntil }) ∧
    (∀ tL, u.lockedUntil = some tL → now < tL →
      AuthService.login env now newRefresh email password ua ip db =
        (db, .error (.authentication
          ("Account locked. Please try again in " ++
            toString ((tL - now + 59999) / 60000) ++ " minutes."))) ∧
      (∀ env2 : Env,
        AuthService.login env2 now newRefresh email password ua ip db =
          AuthService.login env now newRefresh email password ua ip db)) := by
  constructor
  · intro hnl hcmp
    have hred := login_not_locked env now newRefresh email password ua ip db
      u hfind hnl
    rw [hred, loginAfterLockCheck_wrong env now newRefresh password ua ip u
      db hcmp huid]
    constructor
    · by_cases h5 : 5 ≤ u.failedLogins + 1 <;> simp [h5]
    · by_cases h5 : 5 ≤ u.failedLogins + 1
      · have h1 := findById_after_update u.id
          (fun v => { v with failedLogins := u.failedLogins + 1 }) db u
          (fun _ => rfl) huid
        have h2 := findById_after_update u.id
          (fun v => { v with lockedUntil := some (now + 30 * 60 * 1000) })
          _ _ (fun _ => rfl) h1
        simp only [h5, if_pos, if_true]
        simp [h2]
      · have h1 := findById_after_update u.id
          (fun v => { v with failedLogins := u.failedLogins + 1 }) db u
          (fun _ => rfl) huid
        simp only [h5, if_neg, if_false]
        simp [h1]
  · intro tL hlk hfut
    refine ⟨login_locked env now newRefresh email password ua ip db u tL
      hfind hlk hfut, fun env2 => ?_⟩
    rw [login_locked env now newRefresh email password ua ip db u tL hfind
      hlk hfut, login_locked env2 now newRefresh email password ua ip db u
      tL hfind hlk hfut]

/-- C4: a user whose status is BANNED or SUSPENDED never receives a new
access token: `login` with the correct password raises an
`AuthenticationError` naming the status (and creates no token under any
circumstances), and `refresh` raises
`AuthenticationError("Account is not active")` before minting. -/
theorem C4_inactive_never_gets_tokens (env : Env) (now : Nat)
    (newRefresh email password ua ip t : String) (db : DB) (u : StoredUser)
    (rec : StoredToken) :
    (UserRepository.findByEmail email db = some u →
      (∀ tL, u.lockedUntil = some tL → tL ≤ now) →
      env.bcryptCompare password u.passwordHash = true →
      ((u.status = UserStatus.BANNED →
        AuthService.login env now newRefresh email password ua ip db =
          (db, .error (.authentication "Your account has been banned"))) ∧
       (u.status = UserStatus.SUSPENDED →
        AuthService.login env now newRefresh email password ua ip db =
          (db, .error
            (.authentication "Your account is currently suspended"))))) ∧
    (UserRepository.findByEmail email db = some u →
      (u.status = UserStatus.BANNED ∨ u.status = UserStatus.SUSPENDED) →
      (∀ r, (AuthService.login env now newRefresh email password ua ip
        db).2 ≠ .ok r) ∧
      (AuthService.login env now newRefresh email password ua ip
        db).1.tokens = db.tokens) ∧
    (t ≠ "" →
      TokenRepository.findByHash (env.hashToken t) db = some rec →
      rec.revokedAt = none →
      ¬ rec.expiresAt < now →
      UserRepository.findById rec.userId db = some u →
      (u.status = UserStatus.BANNED ∨ u.status = UserStatus.SUSPENDED) →
      AuthService.refreshTokenOp env now newRefresh t ua ip db =
        (db, .error (.authentication "Account is not active"))) ∧
    (TokenRepository.findByHash (env.hashToken t) db = some rec →
      UserRepository.findById rec.userId db = some u →
      (u.status = UserStatus.BANNED ∨ u.status = UserStatus.SUSPENDED) →
      ∀ r, (AuthService.refreshTokenOp env now newRefresh t ua ip db).2 ≠
        .ok r) := by
  refine ⟨?_, ?_, ?_, ?_⟩
  · intro hfind hnl hcmp
    rw [login_not_locked env now newRefresh email password ua ip db u hfind
      hnl]
    unfold AuthService.loginAfterLockCheck
    constructor
    · intro hb
      simp [hcmp, hb]
    · intro hs
      simp [hcmp, hs]
  · intro hfind hstat
    by_cases hlocked : ∃ tL, u.lockedUntil = some tL ∧ now < tL
    · obtain ⟨tL, hlk, hfut⟩ := hlocked
      rw [login_locked env now newRefresh email password ua ip db u tL hfind
        hlk hfut]
      simp
    · push_neg at hlocked
      rw [login_not_locked env now newRefresh email password ua ip db u
        hfind hlocked]
      unfold AuthService.loginAfterLockCheck
      by_cases hcmp : env.bcryptCompare password u.passwordHash
      · rcases hstat with hb | hs
        · simp [hcmp, hb]
        · simp [hcmp, hs]
      · simp only [hcmp, Bool.false_eq_true, if_false]
        unfold UserRepository.incrementFailedLogins
        cases hu2 : UserRepository.findById u.id db with
        | none => simp
        | some v =>
            by_cases h5 : 5 ≤ v.failedLogins + 1 <;>
              simp [h5, UserRepository.updateUserRow]
  · intro hne hfind hlive hexp huser hstat
    unfold AuthService.refreshTokenOp AuthService.refreshRead
    simp [hne, hfind, hlive, hexp, huser, hstat]
  · intro hfind huser hstat r
    by_cases hne : t = ""
    · simp [AuthService.refreshTokenOp, AuthService.refreshRead, hne]
    · cases hrev : rec.revokedAt with
      | some rv =>
          rw [refresh_reuse_detected env now newRefresh t ua ip db rec rv
            hne hfind hrev]
          simp
      | none =>
          by_cases hexp : rec.expiresAt < now
          · unfold AuthService.refreshTokenOp AuthService.refreshRead
            simp [hne, hfind, hrev, hexp]
          · unfold AuthService.refreshTokenOp AuthService.refreshRead
            simp [hne, hfind, hrev, hexp, huser, hstat]

/-- A banned user. -/
def erin : StoredUser :=
  { id := 4, email := "e@x.com", username := "erin",
    passwordHash := "HSecret9", displayName := "Erin", role := "USER",
    status := UserStatus.BANNED, emailVerified := true, failedLogins := 0,
    lockedUntil := none, verifyToken := none, resetToken := none,
    resetTokenExpiry := none, lastLoginAt := none, lastLoginIp := none }

/-- A suspended user. -/
def frank : StoredUser :=
  { id := 5, email := "f@x.com", username := "frank",
    passwordHash := "HSecret9", displayName := "Frank", role := "USER",
    status := UserStatus.SUSPENDED, emailVerified := true,
    failedLogins := 0, lockedUntil := none, verifyToken := none,
    resetToken := none, resetTokenExpiry := none, lastLoginAt := none,
    lastLoginIp := none }

/-- A live refresh token owned by the banned user Erin. -/
def tokOfBanned : StoredToken :=
  { tokenHash := "tb", userId := 4, userAgent := "ua", ipAddress := "ip",
    expiresAt := 1000000, createdAt := 0, revokedAt := none,
    replacedBy := none }

/-- Store with a banned and a suspended user. -/
def dbInactive : DB :=
  { users := [erin, frank], tokens := [tokOfBanned] }

/-- C4 witness: correct-password logins of Erin (banned) and Frank
(suspended) raise the status-specific errors, and refreshing Erin's live
token raises the inactive-account error. -/
theorem C4_witness :
    AuthService.login envId 10 "n" "e@x.com" "Secret9" "ua" "ip"
        dbInactive =
      (dbInactive,
        .error (.authentication "Your account has been banned")) ∧
    AuthService.login envId 10 "n" "f@x.com" "Secret9" "ua" "ip"
        dbInactive =
      (dbInactive,
        .error (.authentication "Your account is currently suspended")) ∧
    AuthService.refreshTokenOp envId 10 "n" "tb" "ua" "ip" dbInactive =
      (dbInactive, .error (.authentication "Account is not active")) := by
  have he := C4_inactive_never_gets_tokens envId 10 "n" "e@x.com" "Secret9"
    "ua" "ip" "tb" dbInactive erin tokOfBanned
  have hf := C4_inactive_never_gets_tokens envId 10 "n" "f@x.com" "Secret9"
    "ua" "ip" "tb" dbInactive frank tokOfBanned
  refine ⟨?_, ?_, ?_⟩
  · exact (he.1 (by decide) (fun tL h => nomatch h) (by decide)).1 rfl
  · exact (hf.1 (by decide) (fun tL h => nomatch h) (by decide)).2 rfl
  · exact he.2.2.1 (by decide) (by decide) rfl (by decide) (by decide)
      (Or.inl rfl)

/-- C5: login failure wording is identical for an unregistered email and
for a wrong password on an existing account, and `requestPasswordReset`
returns the same message whether or not the email exists. -/
theorem C5_indistinguishable_failures (env : Env) (now : Nat)
    (newRefresh resetTok email password ua ip : String) (db : DB)
    (u : StoredUser) :
    (UserRepository.findByEmail email db = none →
      AuthService.login env now newRefresh email password ua ip db =
        (db, .error (.authentication "Invalid email or password"))) ∧
    (UserRepository.findByEmail email db = some u →
      UserRepository.findById u.id db = some u →
      (∀ tL, u.lockedUntil = some tL → tL ≤ now) →
      env.bcryptCompare password u.passwordHash = false →
      (AuthService.login env now newRefresh email password ua ip db).2 =
        .error (.authentication "Invalid email or password")) ∧
    (AuthService.requestPasswordReset now resetTok email db).2 =
      .ok "If the email exists, a reset link has been sent" := by
  refine ⟨?_, ?_, ?_⟩
  · intro hnone
    unfold AuthService.login
    simp [hnone]
  · intro hfind huid hnl hcmp
    rw [login_not_locked env now newRefresh email password ua ip db u hfind
      hnl, loginAfterLockCheck_wrong env now newRefresh password ua ip u db
      hcmp huid]
  · unfold AuthService.requestPasswordReset
    cases hfind : UserRepository.findByEmail email db with
    | none => simp
    | some v =>
        by_cases he : email = ""
        · rw [he] at hfind
          unfold UserRepository.findByEmail at hfind
          simp at hfind
        · unfold UserRepository.findByEmail at hfind
          rw [if_neg he] at hfind
          unfold UserRepository.setResetToken
          simp [hfind]

/-- C10: the failed-login counter is reset to 0 only by a successful login
or a successful password reset — refresh, logout, logoutAll,
password-reset request, email verification and password change never touch
any counter — and the lock fires whenever the post-increment counter is at
least 5, so an expired lock plus a single further failed attempt re-locks
the account for another 30 minutes. -/
theorem C10_counter_reset_discipline (env : Env)
    (now tExpired uid i : Nat)
    (newRefresh email password ua ip t verifyTok resetTok : String)
    (newPassword currentPassword : String) (db : DB) (u : StoredUser) :
    failedLoginsOf i
        (AuthService.refreshTokenOp env now newRefresh t ua ip db).1 =
      failedLoginsOf i db ∧
    failedLoginsOf i (AuthService.logout env now t db).1 =
      failedLoginsOf i db ∧
    failedLoginsOf i (AuthService.logoutAll now uid db).1 =
      failedLoginsOf i db ∧
    failedLoginsOf i
        (AuthService.requestPasswordReset now resetTok email db).1 =
      failedLoginsOf i db ∧
    failedLoginsOf i (AuthService.verifyEmailOp verifyTok db).1 =
      failedLoginsOf i db ∧
    failedLoginsOf i (AuthService.changePassword env now uid
        currentPassword newPassword db).1 =
      failedLoginsOf i db ∧
    (UserRepository.findByEmail email db = some u →
      (∀ tL, u.lockedUntil = some tL → tL ≤ now) →
      env.bcryptCompare password u.passwordHash = true →
      ¬ u.status = UserStatus.BANNED →
      ¬ u.status = UserStatus.SUSPENDED →
      TokenRepository.findByHash (env.hashToken newRefresh) db = none →
      UserRepository.findById u.id db = some u →
      UserRepository.findById u.id
          (AuthService.login env now newRefresh email password ua ip
            db).1 =
        some { u with failedLogins := 0, lockedUntil := none,
                      lastLoginAt := some now, lastLoginIp := some ip }) ∧
    (db.users.find? (fun v =>
        v.resetToken == some resetTok &&
        match v.resetTokenExpiry with
        | some e => decide (now < e)
        | none => false) = some u →
      UserRepository.findById u.id db = some u →
      isStrongPassword newPassword = true →
      UserRepository.findById u.id
          (AuthService.resetPasswordOp env now resetTok newPassword
            db).1 =
        some { u with passwordHash := env.bcryptHash newPassword,
                      resetToken := none, resetTokenExpiry := none,
                      failedLogins := 0, lockedUntil := none }) ∧
    (UserRepository.findByEmail email db = some u →
      UserRepository.findById u.id db = some u →
      u.lockedUntil = some tExpired → tExpired ≤ now →
      5 ≤ u.failedLogins + 1 →
      env.bcryptCompare password u.passwordHash = false →
      UserRepository.findById u.id
          (AuthService.login env now newRefresh email password ua ip
            db).1 =
        some { u with failedLogins := u.failedLogins + 1,
                      lockedUntil := some (now + 30 * 60 * 1000) } ∧
      (AuthService.login env now newRefresh email password ua ip db).2 =
        .error (.authentication "Invalid email or password")) := by
  refine ⟨?_, ?_, ?_, ?_, ?_, ?_, ?_, ?_, ?_⟩
  · exact failedLoginsOf_congr_users i db _
      (refreshTokenOp_users env now newRefresh t ua ip db)
  · exact failedLoginsOf_congr_users i db _ (logout_users env now t db)
  · exact failedLoginsOf_congr_users i db _ rfl
  · unfold AuthService.requestPasswordReset
    cases hf : UserRepository.findByEmail email db with
    | none => simp [hf]
    | some v =>
        unfold UserRepository.setResetToken
        cases hs2 : db.users.find? (fun w => w.email = lowerString
            email) with
        | none => simp [hf, hs2]
        | some w =>
            simp only [hf, hs2]
            exact failedLoginsOf_updateUserRow i w.id _ db (fun _ => rfl)
              (fun _ => rfl)
  · unfold AuthService.verifyEmailOp UserRepository.verifyEmail
    cases hf : db.users.find? (fun v => v.verifyToken = some verifyTok) with
    | none => simp [hf]
    | some u0 =>
        simp only [hf]
        exact failedLoginsOf_updateUserRow i u0.id _ db (fun _ => rfl)
          (fun _ => rfl)
  · unfold AuthService.changePassword
    cases hf : UserRepository.findById uid db with
    | none => simp [hf]
    | some u0 =>
        by_cases hcmp0 : env.bcryptCompare currentPassword u0.passwordHash
        · by_cases hstr : isStrongPassword newPassword
          · unfold UserRepository.updatePasswordHash
            simp only [hf, hcmp0, if_true, hstr, not_true, if_false,
              Option.isSome_some]
            have e1 : failedLoginsOf i
                (TokenRepository.revokeAllForUser now uid
                  (UserRepository.updateUserRow uid
                    (fun v => { v with
                      passwordHash := env.bcryptHash newPassword }) db)) =
                failedLoginsOf i (UserRepository.updateUserRow uid
                  (fun v => { v with
                    passwordHash := env.bcryptHash newPassword }) db) :=
              failedLoginsOf_congr_users i _ _ rfl
            have e2 := failedLoginsOf_updateUserRow i uid
              (fun v => { v with passwordHash := env.bcryptHash newPassword })
              db (fun _ => rfl) (fun _ => rfl)
            simp only [e1, e2]
          · simp [hf, hcmp0, hstr]
        · simp [hf, hcmp0]
  · intro hfind hnl hcmp hb hs hfresh huid
    exact (login_success_resets env now newRefresh email password ua ip db
      u hfind hnl hcmp hb hs hfresh huid).2
  · intro hfirst huid hstr
    unfold AuthService.resetPasswordOp
    rw [if_neg (fun hcon => hcon hstr)]
    unfold UserRepository.resetPassword
    simp only [hfirst]
    rw [findById_revokeAll]
    exact findById_after_update u.id _ db u (fun _ => rfl) huid
  · intro hfind huid hlk hle h5 hcmp
    have hnl : ∀ tL, u.lockedUntil = some tL → tL ≤ now := by
      intro tL h
      rw [hlk] at h
      exact (Option.some.inj h) ▸ hle
    rw [login_not_locked env now newRefresh email password ua ip db u hfind
      hnl, loginAfterLockCheck_wrong env now newRefresh password ua ip u db
      hcmp huid]
    simp only [if_pos h5]
    refine ⟨?_, by trivial⟩
    have h1 := findById_after_update u.id
      (fun v => { v with failedLogins := u.failedLogins + 1 }) db u
      (fun _ => rfl) huid
    have h2 := findById_after_update u.id
      (fun v => { v with lockedUntil := some (now + 30 * 60 * 1000) }) _ _
      (fun _ => rfl) h1
    exact h2

/-- User holding a pending password-reset token. -/
def gina : StoredUser :=
  { id := 7, email := "g@x.com", username := "gina",
    passwordHash := "HOld9pass", displayName := "Gina", role := "USER",
    status := UserStatus.ACTIVE, emailVerified := true, failedLogins := 3,
    lockedUntil := none, verifyToken := none, resetToken := some "rt9",
    resetTokenExpiry := some 5000, lastLoginAt := none,
    lastLoginIp := none }

/-- User one failed attempt away from the lockout threshold. -/
def carol : StoredUser :=
  { id := 2, email := "c@x.com", username := "carol",
    passwordHash := "HSecret9", displayName := "Carol", role := "USER",
    status := UserStatus.ACTIVE, emailVerified := true, failedLogins := 4,
    lockedUntil := none, verifyToken := none, resetToken := none,
    resetTokenExpiry := none, lastLoginAt := none, lastLoginIp := none }

/-- User currently locked until t = 2000000. -/
def dave : StoredUser :=
  { id := 3, email := "d@x.com", username := "dave",
    passwordHash := "HSecret9", displayName := "Dave", role := "USER",
    status := UserStatus.ACTIVE, emailVerified := true, failedLogins := 5,
    lockedUntil := some 2000000, verifyToken := none, resetToken := none,
    resetTokenExpiry := none, lastLoginAt := none, lastLoginIp := none }

/-- Store for the lockout scenarios. -/
def dbLock : DB := { users := [carol, dave], tokens := [] }

/-- C3 witness: Carol's 5th failed attempt sets the 30-minute lock, and
Dave's attempt during his lock fails with the remaining-minutes
message. -/
theorem C3_witness :
    (AuthService.login envId 10 "n" "c@x.com" "wrong" "ua" "ip" dbLock).2 =
      .error (.authentication "Invalid email or password") ∧
    UserRepository.findById 2
        (AuthService.login envId 10 "n" "c@x.com" "wrong" "ua" "ip"
          dbLock).1 =
      some { carol with failedLogins := 5, lockedUntil := some 1800010 } ∧
    AuthService.login envId 10 "n" "d@x.com" "pw" "ua" "ip" dbLock =
      (dbLock, .error (.authentication
        "Account locked. Please try again in 34 minutes.")) := by
  have hc := C3_failed_login_lockout envId 10 "n" "c@x.com" "wrong" "ua"
    "ip" dbLock carol (by decide) (by decide)
  have hd := C3_failed_login_lockout envId 10 "n" "d@x.com" "pw" "ua" "ip"
    dbLock dave (by decide) (by decide)
  have hcr := hc.1 (fun tL h => nomatch h) (by decide)
  exact ⟨hcr.1, hcr.2, (hd.2 2000000 rfl (by decide)).1⟩

/-- C5 witness: an unknown email and Carol's wrong password produce the
identical error, and the reset-request message is the same for an existing
and for an unknown email. -/
theorem C5_witness :
    AuthService.login envId 10 "n" "z@x.com" "whatever" "ua" "ip" dbLock =
      (dbLock, .error (.authentication "Invalid email or password")) ∧
    (AuthService.login envId 10 "n" "c@x.com" "wrongpw" "ua" "ip"
      dbLock).2 = .error (.authentication "Invalid email or password") ∧
    (AuthService.requestPasswordReset 10 "rt" "c@x.com" dbLock).2 =
      .ok "If the email exists, a reset link has been sent" ∧
    (AuthService.requestPasswordReset 10 "rt" "z@x.com" dbLock).2 =
      .ok "If the email exists, a reset link has been sent" := by
  have h1 := C5_indistinguishable_failures envId 10 "n" "rt" "z@x.com"
    "whatever" "ua" "ip" dbLock carol
  have h2 := C5_indistinguishable_failures envId 10 "n" "rt" "c@x.com"
    "wrongpw" "ua" "ip" dbLock carol
  exact ⟨h1.1 (by decide),
    h2.2.1 (by decide) (by decide) (fun tL h => nomatch h) (by decide),
    h2.2.2, h1.2.2⟩

/-- Store for the counter-reset scenarios: Dave's lock has expired with his
counter at 5, Gina holds a live reset token. -/
def dbC10 : DB := { users := [dave, gina], tokens := [tokLive] }

/-- C10 witness: refresh leaves Dave's counter alone; a successful login
after his lock expires zeroes it; Gina's successful password reset zeroes
hers; and one further failed attempt after the lock expires re-locks Dave
for another 30 minutes. -/
theorem C10_witness :
    failedLoginsOf 3
        (AuthService.refreshTokenOp envId 10 "n" "zz" "ua" "ip" dbC10).1 =
      failedLoginsOf 3 dbC10 ∧
    UserRepository.findById 3
        (AuthService.login envId 3000000 "n" "d@x.com" "Secret9" "ua" "ip"
          dbC10).1 =
      some { dave with failedLogins := 0, lockedUntil := none,
                       lastLoginAt := some 3000000,
                       lastLoginIp := some "ip" } ∧
    UserRepository.findById 7
        (AuthService.resetPasswordOp envId 10 "rt9" "NewPass9" dbC10).1 =
      some { gina with passwordHash := "HNewPass9", resetToken := none,
                       resetTokenExpiry := none, failedLogins := 0,
                       lockedUntil := none } ∧
    UserRepository.findById 3
        (AuthService.login envId 3000000 "n" "d@x.com" "wrong" "ua" "ip"
          dbC10).1 =
      some { dave with failedLogins := 6,
                       lockedUntil := some 4800000 } := by
  have h1 := C10_counter_reset_discipline envId 10 0 1 3 "n" "x@x.com"
    "pw" "ua" "ip" "zz" "vt" "rt" "np1np1np" "cur" dbC10 dave
  have h2 := C10_counter_reset_discipline envId 3000000 2000000 1 3 "n"
    "d@x.com" "Secret9" "ua" "ip" "zz" "vt" "rt9" "NewPass9" "cur" dbC10
    dave
  have h3 := C10_counter_reset_discipline envId 10 0 1 3 "n" "d@x.com"
    "pw" "ua" "ip" "zz" "vt" "rt9" "NewPass9" "cur" dbC10 gina
  have h4 := C10_counter_reset_discipline envId 3000000 2000000 1 3 "n"
    "d@x.com" "wrong" "ua" "ip" "zz" "vt" "rt" "np" "cur" dbC10 dave
  refine ⟨h1.1, ?_, ?_, ?_⟩
  · exact h2.2.2.2.2.2.2.1 (by decide)
      (fun tL h => (Option.some.inj h) ▸
        (by decide : (2000000 : Nat) ≤ 3000000))
      (by decide) (by decide) (by decide) (by decide) (by decide)
  · exact h3.2.2.2.2.2.2.2.1 (by decide) (by decide) (by decide)
  · exact (h4.2.2.2.2.2.2.2.2 (by decide) (by decide) rfl (by decide)
      (by decide) (by decide)).1

/-- Running `logout` on a token whose row exists: unconditional revoke. -/
theorem logout_found (env : Env) (now : Nat) (t : String) (db : DB)
    (rec : StoredToken) (hne : t ≠ "")
    (hfind : TokenRepository.findByHash (env.hashToken t) db = some rec) :
    AuthService.logout env now t db =
      ({ db with tokens := db.tokens.map (fun tok =>
          if tok.tokenHash = env.hashToken t then
            { tok with revokedAt := some now, replacedBy := none }
          else tok) }, .ok ()) := by
  unfold AuthService.logout
  simp only [if_neg hne,
    revoke_of_found now (env.hashToken t) none db rec hfind]

/-- C6 counterexample: `logout` with a non-empty token that has no stored
row propagates the store's record-not-found error (Prisma P2025 raised by
the unconditional `update` inside `revoke`), so `logout` is not total. -/
theorem C6_counterexample :
    (AuthService.logout envId 0 "zzz" dbLock).2 = .error .storeError := rfl

/-- C6 amended: `logout` with a missing/empty token returns without error;
on a token whose row exists (live or already revoked) it succeeds, never
un-revokes anything, and a repeated call also succeeds; but on a non-empty
token with no stored row the underlying update raises a record-not-found
error that `logout` propagates. -/
theorem C6_logout_amended (env : Env) (now now2 : Nat) (t : String)
    (db : DB) (rec : StoredToken) :
    AuthService.logout env now "" db = (db, .ok ()) ∧
    (t ≠ "" → TokenRepository.findByHash (env.hashToken t) db = some rec →
      (AuthService.logout env now t db).2 = .ok () ∧
      TokenRepository.findByHash (env.hashToken t)
          (AuthService.logout env now t db).1 =
        some { rec with revokedAt := some now, replacedBy := none } ∧
      (∀ tok ∈ (AuthService.logout env now t db).1.tokens,
        tok.revokedAt = none → tok ∈ db.tokens) ∧
      (AuthService.logout env now2 t
        (AuthService.logout env now t db).1).2 = .ok ()) ∧
    (t ≠ "" → TokenRepository.findByHash (env.hashToken t) db = none →
      AuthService.logout env now t db = (db, .error .storeError)) := by
  refine ⟨by unfold AuthService.logout; simp, ?_, ?_⟩
  · intro hne hfind
    have hlf := logout_found env now t db rec hne hfind
    have hrecHash := findByHash_hash_eq hfind
    have hafter : TokenRepository.findByHash (env.hashToken t)
        (AuthService.logout env now t db).1 =
        some { rec with revokedAt := some now, replacedBy := none } := by
      rw [hlf]
      show TokenRepository.findByHash (env.hashToken t) _ = _
      rw [findByHash_after_revoke, hfind]
      simp [hrecHash]
    refine ⟨by rw [hlf], hafter, ?_, ?_⟩
    · intro tok htok hliv
      rw [hlf] at htok
      rcases List.mem_map.mp htok with ⟨tok0, htok0, heq⟩
      by_cases hth : tok0.tokenHash = env.hashToken t
      · rw [if_pos hth] at heq
        rw [← heq] at hliv
        simp at hliv
      · rw [if_neg hth] at heq
        rw [← heq]
        exact htok0
    · have hlf2 := logout_found env now2 t (AuthService.logout env now t
        db).1 { rec with revokedAt := some now, replacedBy := none } hne
        hafter
      rw [hlf2]
  · intro hne hnone
    unfold AuthService.logout TokenRepository.revoke
    unfold TokenRepository.findByHash at hnone
    simp [hne, hnone]

/-- C6 witness: an empty token is a no-op, revoking Alice's live token
`"t2"` twice succeeds both times and leaves it revoked, while an unknown
token `"zzz"` makes `logout` raise. -/
theorem C6_witness :
    AuthService.logout envId 7 "" dbReuse = (dbReuse, .ok ()) ∧
    (AuthService.logout envId 7 "t2" dbReuse).2 = .ok () ∧
    TokenRepository.findByHash "t2"
        (AuthService.logout envId 7 "t2" dbReuse).1 =
      some { tokLive with revokedAt := some 7, replacedBy := none } ∧
    (AuthService.logout envId 8 "t2"
      (AuthService.logout envId 7 "t2" dbReuse).1).2 = .ok () ∧
    AuthService.logout envId 7 "zzz" dbReuse =
      (dbReuse, .error .storeError) := by
  have h1 := C6_logout_amended envId 7 8 "t2" dbReuse tokLive
  have h2 := C6_logout_amended envId 7 8 "zzz" dbReuse tokLive
  have hfound := h1.2.1 (by decide) (by decide)
  exact ⟨h1.1, hfound.1, hfound.2.1, hfound.2.2.2,
    h2.2.2 (by decide) (by decide)⟩

/-- A password that is too short, has no digit, or has no letter fails the
strength check. -/
theorem weak_not_strong (p : String)
    (hw : p.length < 8 ∨ p.toList.any (fun c => c.isDigit) = false ∨
      p.toList.any (fun c => c.isAlpha) = false) :
    isStrongPassword p = false := by
  unfold isStrongPassword
  by_cases hemp : p = ""
  · simp [hemp]
  · rw [if_neg hemp]
    by_cases hlen : p.length < 8 ∨ p.length > 128
    · rw [if_pos hlen]
    · rw [if_neg hlen]
      rcases hw with hshort | hnd | hnl
      · exact absurd (Or.inl hshort) hlen
      · simp only [decide_eq_false_iff_not]
        intro hcontra
        rw [hnd] at hcontra
        exact Bool.false_ne_true hcontra.2
      · simp only [decide_eq_false_iff_not]
        intro hcontra
        rw [hnl] at hcontra
        exact Bool.false_ne_true hcontra.1

/-- C7: for every weak password (length < 8, no digit, or no letter),
`register` (on an otherwise valid registration), `resetPassword`, and
`changePassword` (with the correct current password) fail with a
`ValidationError` carrying the unmet password rules, and the store is
unchanged. -/
theorem C7_weak_password_rejected (env : Env) (now newId : Nat)
    (verifyTok email username password displayName resetTok : String)
    (uid : Nat) (currentPassword : String) (db : DB) (u : StoredUser)
    (hw : password.length < 8 ∨
      password.toList.any (fun c => c.isDigit) = false ∨
      password.toList.any (fun c => c.isAlpha) = false) :
    (isValidEmail email = true → isValidUsername username = true →
      AuthService.register env newId verifyTok email username password
        displayName db =
      (db, .error (.validation "Password does not meet requirements"
        (getPasswordStrengthFeedback password)))) ∧
    AuthService.resetPasswordOp env now resetTok password db =
      (db, .error (.validation "Password does not meet requirements"
        (getPasswordStrengthFeedback password))) ∧
    (UserRepository.findById uid db = some u →
      env.bcryptCompare currentPassword u.passwordHash = true →
      AuthService.changePassword env now uid currentPassword password db =
        (db, .error (.validation "Password does not meet requirements"
          (getPasswordStrengthFeedback password)))) := by
  have hstrong := weak_not_strong password hw
  refine ⟨?_, ?_, ?_⟩
  · intro hem hun
    unfold AuthService.register
    simp [hem, hun, hstrong]
  · unfold AuthService.resetPasswordOp
    simp [hstrong]
  · intro hfind hcmp
    unfold AuthService.changePassword
    simp [hfind, hcmp, hstrong]

/-- C7 witness: the 6-character password `"pw1pw1"` is rejected by all
three operations on `dbLock` without any store mutation. -/
theorem C7_witness :
    AuthService.register envId 99 "vt" "a@y.com" "newbie" "pw1pw1" ""
        dbLock =
      (dbLock, .error (.validation "Password does not meet requirements"
        ["Password must be at least 8 characters"])) ∧
    AuthService.resetPasswordOp envId 10 "rt" "pw1pw1" dbLock =
      (dbLock, .error (.validation "Password does not meet requirements"
        ["Password must be at least 8 characters"])) ∧
    AuthService.changePassword envId 10 2 "Secret9" "pw1pw1" dbLock =
      (dbLock, .error (.validation "Password does not meet requirements"
        ["Password must be at least 8 characters"])) := by
  have h := C7_weak_password_rejected envId 10 99 "vt" "a@y.com" "newbie"
    "pw1pw1" "" "rt" 2 "Secret9" dbLock carol (Or.inl (by decide))
  exact ⟨h.1 (by decide) (by decide), h.2.1, h.2.2 (by decide) (by decide)⟩

/-- C8 counterexample: the maintenance sweep deletes Alice's revoked token
`"t1"` although its `expiresAt` (1000000) is still in the future at
`now = 10`, because `deleteExpired` also deletes every revoked row. -/
theorem C8_counterexample :
    10 < tokRevoked.expiresAt ∧ tokRevoked ∈ dbReuse.tokens ∧
    tokRevoked ∉ (TokenRepository.deleteExpired 10 dbReuse).tokens := by
  refine ⟨by decide, by decide, by decide⟩

/-- C8 amended: `deleteExpired` deletes exactly the rows that are expired
(`expiresAt < now`) or revoked (`revokedAt` non-null); a live (unrevoked)
token with a future `expiresAt` is never removed. -/
theorem C8_sweep_amended (now : Nat) (db : DB) (tok : StoredToken) :
    tok ∈ (TokenRepository.deleteExpired now db).tokens ↔
      tok ∈ db.tokens ∧ ¬ tok.expiresAt < now ∧ tok.revokedAt = none := by
  unfold TokenRepository.deleteExpired
  rw [List.mem_filter]
  constructor
  · rintro ⟨hmem, hp⟩
    simp only [decide_eq_true_eq, not_or] at hp
    exact ⟨hmem, hp.1, of_not_not (fun hne => hp.2 hne)⟩
  · rintro ⟨hmem, hexp, hrev⟩
    refine ⟨hmem, ?_⟩
    simp [hexp, hrev]

/-- C8 witness: Alice's live token `"t2"` survives the sweep at
`now = 10`. -/
theorem C8_witness :
    tokLive ∈ (TokenRepository.deleteExpired 10 dbReuse).tokens :=
  (C8_sweep_amended 10 dbReuse tokLive).mpr
    ⟨by decide, by decide, by decide⟩

/-- Rotation plan produced by the read phase of the first concurrent
refresh call (fresh token `"n1"`). -/
def plan1C9 : RefreshPlan :=
  { accessToken := { userId := 1, email := "a@x.com", role := "USER" },
    newRefresh := "n1", oldHash := "t2", newHash := "n1", userId := 1 }

/-- Rotation plan produced by the read phase of the second concurrent
refresh call (fresh token `"n2"`). -/
def plan2C9 : RefreshPlan :=
  { accessToken := { userId := 1, email := "a@x.com", role := "USER" },
    newRefresh := "n2", oldHash := "t2", newHash := "n2", userId := 1 }

/-- C9: the code performs `findByHash` and `revoke` as two separate store
operations, and `revoke` updates unconditionally (it is not a
revoke-if-live conditional update).  Interleaving two refresh calls that
present the same raw token `"t2"` as read₁, read₂, write₁, write₂ makes
both calls succeed with a new pair — the claimed at-most-one-success
guarantee does not hold on the code. -/
theorem C9_interleaved_refreshes_both_succeed :
    AuthService.refreshRead envId 10 "n1" "t2"
        { users := [alice], tokens := [tokLive] } =
      ({ users := [alice], tokens := [tokLive] }, .ok plan1C9) ∧
    AuthService.refreshRead envId 10 "n2" "t2"
        { users := [alice], tokens := [tokLive] } =
      ({ users := [alice], tokens := [tokLive] }, .ok plan2C9) ∧
    (AuthService.refreshWrite envId 10 "ua" "ip" plan1C9
        { users := [alice], tokens := [tokLive] }).2 =
      .ok { accessToken := { userId := 1, email := "a@x.com",
                             role := "USER" },
            refreshToken := "n1" } ∧
    (AuthService.refreshWrite envId 10 "ua" "ip" plan2C9
        (AuthService.refreshWrite envId 10 "ua" "ip" plan1C9
          { users := [alice], tokens := [tokLive] }).1).2 =
      .ok { accessToken := { userId := 1, email := "a@x.com",
                             role := "USER" },
            refreshToken := "n2" } :=
  ⟨rfl, rfl, rfl, rfl⟩

/-- C2 witness: rotating Alice's live token `"t2"` in a store holding only
that token succeeds, persists the `"n1"` row, revokes the old row with
`replacedBy "n1"`, and a replay of `"t2"` raises the reuse error. -/
theorem C2_witness :
    (AuthService.refreshTokenOp envId 10 "n1" "t2" "ua" "ip"
        { users := [alice], tokens := [tokLive] }).2 =
      .ok { accessToken := { userId := 1, email := "a@x.com",
                             role := "USER" },
            refreshToken := "n1" } ∧
    TokenRepository.findByHash "n1"
        (AuthService.refreshTokenOp envId 10 "n1" "t2" "ua" "ip"
          { users := [alice], tokens := [tokLive] }).1 =
      some { tokenHash := "n1", userId := 1, userAgent := "ua",
             ipAddress := "ip", expiresAt := 604800010, createdAt := 10,
             revokedAt := none, replacedBy := none } ∧
    TokenRepository.findByHash "t2"
        (AuthService.refreshTokenOp envId 10 "n1" "t2" "ua" "ip"
          { users := [alice], tokens := [tokLive] }).1 =
      some { tokLive with revokedAt := some 10, replacedBy := some "n1" } ∧
    AuthService.refreshTokenOp envId 20 "n2" "t2" "ua" "ip"
        (AuthService.refreshTokenOp envId 10 "n1" "t2" "ua" "ip"
          { users := [alice], tokens := [tokLive] }).1 =
      (TokenRepository.revokeAllForUser 20 1
          (AuthService.refreshTokenOp envId 10 "n1" "t2" "ua" "ip"
            { users := [alice], tokens := [tokLive] }).1,
        .error (.authentication "Token has been revoked")) := by
  have h := C2_rotation_invariant envId 10 "n1" "t2" "ua" "ip"
    { users := [alice], tokens := [tokLive] } tokLive alice (by decide)
    (by decide) (by decide) (by decide) (by decide) (by decide) (by decide)
  exact ⟨h.1, h.2.1, h.2.2.1, h.2.2.2 20 "n2" "ua" "ip"⟩

/-- C1 witness: in `dbReuse`, presenting the revoked token `"t1"` raises
the reuse error and revokes Alice's live token `"t2"`. -/
theorem C1_witness :
    AuthService.refreshTokenOp envId 10 "n" "t1" "ua" "ip" dbReuse =
      (TokenRepository.revokeAllForUser 10 1 dbReuse,
        .error (.authentication "Token has been revoked")) ∧
    { tokLive with revokedAt := some 10 } ∈
      (AuthService.refreshTokenOp envId 10 "n" "t1" "ua" "ip" dbReuse).1.tokens := by
  have h := C1_reuse_revokes_all_and_raises envId 10 "n" "t1" "ua" "ip"
    dbReuse tokRevoked 5 (by decide) (by decide) (by decide)
  exact ⟨h.1, h.2 tokLive (by decide) (by decide) (by decide)⟩

end Forum
